import Mathlib

/-!
Verification of the LinuxSampler core against its specification.

Each section embeds one part of the C++ source shallowly in Lean:
machine integers become `Nat`/`Int`, C++ `float`/`double` values that only
flow through comparisons and linear arithmetic become `Rat`, and stateful
code becomes explicit state passing.  The definitions follow the source
files under `src/` line by line; file and line references are given in the
doc comments.
-/

namespace LS

/-! ## Event generator (src/src/engines/common/Event.h)

`EventGenerator::ToFragmentPos` (lines 79-81) computes
`int32_t(int32_t(TimeStamp - FragmentTime.begin) * FragmentTime.sample_ratio)`.
We abstract the signed 32-bit difference `TimeStamp - begin` as an integer
`diff` and the `float` field `sample_ratio` as a rational `srat`; the final
C++ cast from `float` to `int32_t` truncates toward zero. -/

/-- Truncation of a rational toward zero, as the C++ `float` → `int32_t`
cast does. -/
def ratTrunc (q : ℚ) : ℤ := q.num.tdiv q.den

/-- `EventGenerator::ToFragmentPos` (Event.h lines 79-81): the raw
fragment-relative position of a time stamp, `diff` being the signed
difference `TimeStamp - FragmentTime.begin` and `srat` the
samples-per-time-unit field `FragmentTime.sample_ratio`. -/
def ToFragmentPos (diff : ℤ) (srat : ℚ) : ℤ :=
  ratTrunc ((diff : ℚ) * srat)

/-- `Event::FragmentPos` (Event.h lines 164-169).  `cached` is the current
value of the memoization field `iFragmentPos` (initialized to `-1` by
`ResetFragmentPos`).  A non-negative cached value is returned as is;
otherwise the position is resolved via `ToFragmentPos` and only a negative
result is clamped, to `0`.  There is no clamping against the fragment
size. -/
def FragmentPos (cached : ℤ) (diff : ℤ) (srat : ℚ) : ℤ :=
  if 0 ≤ cached then cached
  else
    let v := ToFragmentPos diff srat
    if v < 0 then 0 else v

/-- The clamping formula claimed by the specification:
`clamp((t - fragment_begin) * ratio, 0, samples_to_process - 1)`. -/
def fragmentPosSpec (diff : ℤ) (srat : ℚ) (samplesToProcess : ℤ) : ℤ :=
  min (max (ToFragmentPos diff srat) 0) (samplesToProcess - 1)

/-! ## Double-buffered configuration (src/src/common/SynchronizedConfig.h)

The class holds `atomic_t lock`, `atomic_t indexAtomic`, `int updateIndex`
and `T config[2]`.  We model the two-valued index as `Bool` (`^ 1` becomes
boolean negation) and the array as a function `Bool → T`.  The spin wait of
`SwitchConfig` on `lock` does not change any of this state, so it is
dropped from the functional model. -/

structure SynchronizedConfig (T : Type) where
  index : Bool
  updateIndex : Bool
  config : Bool → T

/-- `SynchronizedConfig::GetConfigForUpdate` (lines 117-120): records
`updateIndex = indexAtomic ^ 1` and hands out `config[updateIndex]` (the
state change; the returned reference is `.config .updateIndex` of the
result). -/
def GetConfigForUpdate {T : Type} (s : SynchronizedConfig T) : SynchronizedConfig T :=
  { s with updateIndex := !s.index }

/-- The updater mutating the instance in slot `b` in place with `f`
(the "update" performed between the protocol calls). -/
def mutateSlot {T : Type} (b : Bool) (f : T → T) (s : SynchronizedConfig T) :
    SynchronizedConfig T :=
  { s with config := Function.update s.config b (f (s.config b)) }

/-- `SynchronizedConfig::SwitchConfig` (lines 122-127): sets
`indexAtomic = updateIndex`, spin-waits on the reader lock (stateless
here), and returns `config[updateIndex ^ 1]`; the state change. -/
def SwitchConfig {T : Type} (s : SynchronizedConfig T) : SynchronizedConfig T :=
  { s with index := s.updateIndex }

/-- The slot whose instance `SwitchConfig` returns: `updateIndex ^ 1`. -/
def switchReturnSlot {T : Type} (s : SynchronizedConfig T) : Bool :=
  !s.updateIndex

/-- State after `GetConfigForUpdate` followed by applying `f` to the
handed-out instance (`config[updateIndex]`). -/
def updMut1 {T : Type} (f : T → T) (s : SynchronizedConfig T) : SynchronizedConfig T :=
  mutateSlot (GetConfigForUpdate s).updateIndex f (GetConfigForUpdate s)

/-- State after the first `SwitchConfig` of the update protocol. -/
def updSw1 {T : Type} (f : T → T) (s : SynchronizedConfig T) : SynchronizedConfig T :=
  SwitchConfig (updMut1 f s)

/-- State after applying `f` to the instance returned by the first
`SwitchConfig` (slot `updateIndex ^ 1`). -/
def updMut2 {T : Type} (f : T → T) (s : SynchronizedConfig T) : SynchronizedConfig T :=
  mutateSlot (switchReturnSlot (updSw1 f s)) f (updSw1 f s)

/-- State after the second `SwitchConfig` (no `GetConfigForUpdate` in
between, as in the claimed protocol). -/
def updSw2 {T : Type} (f : T → T) (s : SynchronizedConfig T) : SynchronizedConfig T :=
  SwitchConfig (updMut2 f s)

/-! ## Voice kill bookkeeping (src/src/engines/gig/Voice.cpp)

`Voice::Trigger` (lines 113-127) stores the note-on event in
`pTriggerEvent` and clears `pKillEvent`; `Voice::Kill` (lines 1089-1092)
records the kill event only when its fragment position lies strictly after
the trigger event's fragment position.  Events are represented here by
their resolved fragment positions. -/

structure VoiceKillState where
  pTriggerEvent : Option ℤ
  pKillEvent : Option ℤ
  deriving DecidableEq, Repr

/-- The event bookkeeping of `Voice::Trigger` (Voice.cpp lines 125-126):
`pTriggerEvent = pNoteOnEvent; pKillEvent = NULL;`. -/
def triggerKillBookkeeping (trigPos : ℤ) : VoiceKillState :=
  { pTriggerEvent := some trigPos, pKillEvent := none }

/-- `Voice::Kill` (Voice.cpp lines 1089-1092):
`if (pTriggerEvent && pKillEvent->FragmentPos() <= pTriggerEvent->FragmentPos()) return;`
`this->pKillEvent = pKillEvent;`. -/
def Voice.kill (killPos : ℤ) (s : VoiceKillState) : VoiceKillState :=
  match s.pTriggerEvent with
  | some t => if killPos ≤ t then s else { s with pKillEvent := some killPos }
  | none => { s with pKillEvent := some killPos }

/-- Modelled from the spec: the envelope fade-down implementation
(EGADSR.cpp, which consumes the voice's `pKillEvent` in
`Voice::Render`, Voice.cpp line 639) is not among the sources.  Per the
spec's regular-kill semantics — "record a kill-event with a fragment
offset; the voice continues rendering until that offset, then forces a
fast volume fade-down and transitions to end" — a freshly triggered voice
can only produce an all-zero output cycle if a kill event was actually
recorded, at an offset no later than the trigger offset (so that the
fade-down suppresses the attack within one sub-fragment). -/
def killRendersSilentCycle (s : VoiceKillState) : Prop :=
  ∃ k t, s.pKillEvent = some k ∧ s.pTriggerEvent = some t ∧ k ≤ t

/-! ## Voice trigger, disk-stream phase (src/src/engines/gig/Voice.cpp lines 262-291)

`long cachedsamples = pSample->GetCache().Size / pSample->FrameSize;`
`DiskVoice = cachedsamples < pSample->SamplesTotal;`
then disk voices order a stream from the disk thread; a failed order
(`OrderNewStream(...) < 0`) leads to `KillImmediately(); return -1;`.
The result of `OrderNewStream` is a parameter `orderRes`. -/

structure TriggerDiskOut where
  DiskVoice : Bool
  orderPlaced : Bool
  killed : Bool
  retNeg : Bool
  deriving DecidableEq, Repr

/-- The disk-voice classification and stream-order phase of
`Voice::Trigger` (Voice.cpp lines 262-291). -/
def triggerDiskPhase (cacheSize frameSize samplesTotal : ℕ) (orderRes : ℤ) :
    TriggerDiskOut :=
  let cachedsamples := cacheSize / frameSize
  if cachedsamples < samplesTotal then
    if orderRes < 0 then
      { DiskVoice := true, orderPlaced := true, killed := true, retNeg := true }
    else
      { DiskVoice := true, orderPlaced := true, killed := false, retNeg := false }
  else
    { DiskVoice := false, orderPlaced := false, killed := false, retNeg := false }

/-! ## Voice trigger, initial pitch (src/src/engines/gig/Voice.cpp lines 294-300)

`double pitchbasecents = pDimRgn->FineTune * 10 + (int) pEngine->ScaleTuning[MIDIKey % 12];`
`if (pDimRgn->PitchTrack) pitchbasecents += (MIDIKey - (int) pDimRgn->UnityNote) * 100;`
`PitchBase = RTMath::CentsToFreqRatio(pitchbasecents) * (SamplesPerSecond / SampleRate);`
`RTMath::CentsToFreqRatio` lives in RTMath (not among the sources); it is
kept abstract as a parameter `ctfr`. -/

/-- The cents argument computed by `Voice::Trigger` (Voice.cpp lines
296-297). -/
def pitchBaseCents (fineTune : ℤ) (scaleTuning : Fin 12 → ℤ) (key : ℕ)
    (unityNote : ℤ) (pitchTrack : Bool) : ℤ :=
  fineTune * 10 + scaleTuning ⟨key % 12, Nat.mod_lt key (by norm_num)⟩ +
    (if pitchTrack then ((key : ℤ) - unityNote) * 100 else 0)

/-- `PitchBase` as computed by `Voice::Trigger` (Voice.cpp line 298),
with the cents-to-frequency-ratio conversion abstract. -/
def PitchBase (ctfr : ℤ → ℚ) (fineTune : ℤ) (scaleTuning : Fin 12 → ℤ)
    (key : ℕ) (unityNote : ℤ) (pitchTrack : Bool)
    (sampleFreq engineFreq : ℚ) : ℚ :=
  ctfr (pitchBaseCents fineTune scaleTuning key unityNote pitchTrack) *
    (sampleFreq / engineFreq)

/-- The pitch-base formula as worded by the specification:
`centsToFreqRatio(fine_tune + scale_tuning[key mod 12] +
(pitch_track ? (key - unity_note) * 100 : 0)) * (sample_rate / engine_sample_rate)`,
where `fineTuneCents` is the region's fine tuning expressed in cents. -/
def pitchBaseSpec (ctfr : ℤ → ℚ) (fineTuneCents : ℤ) (scaleTuning : Fin 12 → ℤ)
    (key : ℕ) (unityNote : ℤ) (pitchTrack : Bool)
    (sampleFreq engineFreq : ℚ) : ℚ :=
  ctfr (fineTuneCents + scaleTuning ⟨key % 12, Nat.mod_lt key (by norm_num)⟩ +
      (if pitchTrack then ((key : ℤ) - unityNote) * 100 else 0)) *
    (sampleFreq / engineFreq)

/-! ## Voice render, playback-state dispatch (src/src/engines/gig/Voice.cpp lines 623-720)

`Voice::Render` first fills the synthesis parameter matrix (which touches
no output buffer), then dispatches on `PlaybackState` (lines 656-703).
Output buffers are written exclusively by `Interpolate` /
`InterpolateAndLoop` (lines 955-1063), whose loops run the per-sample
synthesis step for indices `Skip ≤ i < Samples`.  The per-sample step
itself (`InterpolateOneStep_*`, defined in Voice.h, advances the
floating-point position `Pos`) is abstracted: the position after the
branch's interpolation is an oracle input `posAfter`.  Likewise the disk
thread's answer to `AskForCreatedStream` is the oracle `streamCreated`. -/

inductive playback_state_t where
  | playback_state_ram
  | playback_state_disk
  | playback_state_end
  deriving DecidableEq, Repr

inductive stream_state_t where
  | state_unused
  | state_active
  | state_end
  deriving DecidableEq, Repr

open playback_state_t stream_state_t

structure RenderIn where
  /-- `Samples`: frames to render this cycle. -/
  samples : ℕ
  /-- `PlaybackState` on entry. -/
  playbackState : playback_state_t
  /-- `Delay` (fragment position of the trigger event, used as `Skip`). -/
  delay : ℕ
  /-- `DiskVoice` flag set by `Trigger`. -/
  diskVoice : Bool
  /-- `RAMLoop` flag set by `Trigger`. -/
  ramLoop : Bool
  /-- Oracle: value of `Pos` after the branch's interpolation loop. -/
  posAfter : ℚ
  /-- `MaxRAMPos` set by `Trigger` (may be negative). -/
  maxRAMPos : ℤ
  /-- `pSample->GetCache().Size / pSample->FrameSize`. -/
  cacheFrames : ℕ
  /-- Whether `DiskStreamRef.pStream` is already non-null on entry. -/
  streamPresent : Bool
  /-- Oracle: whether `AskForCreatedStream` hands the stream out now. -/
  streamCreated : Bool
  /-- `DiskStreamRef.State`. -/
  streamState : stream_state_t
  /-- `DiskStreamRef.pStream->GetReadSpace()`. -/
  readSpace : ℕ
  /-- `pEngine->MaxSamplesPerCycle`. -/
  maxSamplesPerCycle : ℕ
  /-- The `MAX_PITCH` (`CONFIG_MAX_PITCH`) shift amount. -/
  maxPitch : ℕ
  /-- `pSample->Channels`. -/
  channels : ℕ
  /-- Whether `pEG1->GetStage() == EGADSR::stage_end` after processing. -/
  eg1StageEnd : Bool

structure RenderOut where
  /-- Number of frames the interpolation loops wrote into the channel's
  output buffers (`Samples - Skip` when an interpolation loop ran, else 0). -/
  framesWritten : ℕ
  /-- Frames of silence written into the disk stream's ring buffer. -/
  silenceWritten : ℕ
  /-- `PlaybackState` after the call. -/
  newState : playback_state_t
  /-- Whether `KillImmediately` was invoked (voice freed / reset). -/
  freed : Bool
  deriving DecidableEq, Repr

/-- The number of output frames an `Interpolate`/`InterpolateAndLoop` call
writes: its loop runs `i` from `Skip` up to `Samples`. -/
def interpFrames (samples delay : ℕ) : ℕ := samples - min delay samples

/-- The playback-state dispatch of `Voice::Render` (Voice.cpp lines
656-720), including the final end-of-release check
`if (pEG1->GetStage() == EGADSR::stage_end) PlaybackState = playback_state_end;`
(which is skipped on the early `return` of the disk branch). -/
def render (i : RenderIn) : RenderOut :=
  let post := fun (st : playback_state_t) =>
    if i.eg1StageEnd then playback_state_end else st
  match i.playbackState with
  | playback_state_ram =>
      -- lines 658-672: interpolate from the RAM cache, then check limits
      let st :=
        if i.diskVoice then
          if i.posAfter > (i.maxRAMPos : ℚ) then playback_state_disk
          else playback_state_ram
        else
          if i.posAfter ≥ (i.cacheFrames : ℚ) then playback_state_end
          else playback_state_ram
      { framesWritten := interpFrames i.samples i.delay, silenceWritten := 0,
        newState := post st, freed := false }
  | playback_state_disk =>
      -- lines 674-697
      if !i.streamPresent && !i.streamCreated then
        -- stream not available in time: KillImmediately(); return;
        { framesWritten := 0, silenceWritten := 0,
          newState := playback_state_disk, freed := true }
      else
        let thresh := (i.maxSamplesPerCycle <<< i.maxPitch) / i.channels
        if i.streamState = state_end ∧ i.readSpace < thresh then
          { framesWritten := interpFrames i.samples i.delay,
            silenceWritten := thresh,
            newState := post playback_state_end, freed := false }
        else
          { framesWritten := interpFrames i.samples i.delay,
            silenceWritten := 0,
            newState := post playback_state_disk, freed := false }
  | playback_state_end =>
      -- lines 700-702: KillImmediately(); no interpolation at all
      { framesWritten := 0, silenceWritten := 0,
        newState := post playback_state_end, freed := true }

/-! ## Launching a voice (src/src/engines/sf2/Engine.cpp lines 119-158)

`Engine::LaunchVoice` returns the empty pool iterator without touching the
voice pool when the region has no sample or the sample's total frame count
is zero (line 137); otherwise it allocates a voice (`allocAppend`, line
145) and initializes it, returning the new voice iff `InitNewVoice`
returned 0. -/

structure LaunchOut where
  /-- Whether `allocAppend` was reached (a voice drawn from the pool). -/
  allocated : Bool
  /-- Whether a (non-empty) voice iterator is returned. -/
  voiceReturned : Bool
  deriving DecidableEq, Repr

/-- `Engine::LaunchVoice` (sf2/Engine.cpp lines 119-158); `hasSample` is
`pRgn->GetSample() != NULL`, `totalFrames` is
`pRgn->GetSample()->GetTotalFrameCount()`, and `initRes` the result of
`InitNewVoice`. -/
def LaunchVoice (hasSample : Bool) (totalFrames : ℕ) (initRes : ℤ) : LaunchOut :=
  if !hasSample || totalFrames = 0 then
    { allocated := false, voiceReturned := false }
  else
    if initRes = 0 then { allocated := true, voiceReturned := true }
    else { allocated := true, voiceReturned := false }

/-! ## Caching initial sample points (src/src/engines/gig/InstrumentResourceManager.cpp)

`InstrumentResourceManager::CacheInitialSamples` (lines 201-230).  Null
samples and samples with `SamplesTotal == 0` are skipped.  A sample whose
total frame count is at most `CONFIG_PRELOAD_SAMPLES` is loaded whole with
a trailer of `(maxSamplesPerCycle << CONFIG_MAX_PITCH) + 3` null frames
(unless its current trailer is already that large); longer samples get
`CONFIG_PRELOAD_SAMPLES` frames cached.  `maxSamplesPerCycle` comes from
the consuming engine channel's audio output device, or the default `128`
(`GIG_RESOURCE_MANAGER_DEFAULT_MAX_SAMPLES_PER_CYCLE`) when the consumer
has no engine.  The libgig loaders `LoadSampleData*` are not among the
sources; modelled from the spec: "load exactly CONFIG_PRELOAD_SAMPLES
frames into RAM, plus a zero-padded trailer of size
(max_samples_per_cycle << CONFIG_MAX_PITCH) + 3 frames"; "Very short
samples (total ≤ preload) are fully cached". -/

structure SampleCacheState where
  /-- `pSample->SamplesTotal` (frames). -/
  samplesTotal : ℕ
  /-- `pSample->FrameSize` (bytes per frame). -/
  frameSize : ℕ
  /-- `pSample->GetCache().Size` (bytes of sample data cached). -/
  cacheSize : ℕ
  /-- `pSample->GetCache().NullExtensionSize` (bytes of trailing silence). -/
  nullExtensionSize : ℕ
  deriving DecidableEq, Repr

/-- The default used when the consumer supplies no audio output device
(`GIG_RESOURCE_MANAGER_DEFAULT_MAX_SAMPLES_PER_CYCLE`, line 33). -/
def defaultMaxSamplesPerCycle : ℕ := 128

/-- `InstrumentResourceManager::CacheInitialSamples` (lines 201-230) as a
transformer of the (optional) sample's cache state.  `preload` stands for
the build constant `CONFIG_PRELOAD_SAMPLES` and `maxPitch` for
`CONFIG_MAX_PITCH`; `consumerMspc` is the consuming channel's
`MaxSamplesPerCycle` when it has an engine with an audio device. -/
def CacheInitialSamples (preload maxPitch : ℕ) (consumerMspc : Option ℕ)
    (sample : Option SampleCacheState) : Option SampleCacheState :=
  match sample with
  | none => none
  | some s =>
    if s.samplesTotal = 0 then some s -- line 206: skip zero size samples
    else if s.samplesTotal ≤ preload then
      let mspc := consumerMspc.getD defaultMaxSamplesPerCycle
      let neededSilenceSamples := (mspc <<< maxPitch) + 3
      let currentlyCachedSilenceSamples := s.nullExtensionSize / s.frameSize
      if currentlyCachedSilenceSamples < neededSilenceSamples then
        -- LoadSampleDataWithNullSamplesExtension(neededSilenceSamples):
        -- whole sample cached, trailer of neededSilenceSamples null frames
        some { s with cacheSize := s.samplesTotal * s.frameSize,
                      nullExtensionSize := neededSilenceSamples * s.frameSize }
      else some s
    else
      if s.cacheSize = 0 then
        -- LoadSampleData(CONFIG_PRELOAD_SAMPLES)
        some { s with cacheSize := preload * s.frameSize }
      else some s

/-- `InstrumentResourceManager::OnBorrow` (lines 181-190): `Update` is
invoked exactly when the entry's recorded `MaxSamplesPerCycle` is smaller
than the borrowing consumer's. -/
def OnBorrowInvokesUpdate (recordedMspc : ℕ) (consumerMspc : Option ℕ) : Bool :=
  recordedMspc < consumerMspc.getD defaultMaxSamplesPerCycle

/-! ## sfz round-robin region selection (src/src/engines/sfz/sfz.cpp lines 131-163)

`Region::OnKey` checks the non-lookup trigger conditions, and only when
they all hold compares the sequence counter against `seq_position` and
advances it by `seq_counter = (seq_counter % seq_length) + 1`.  C++ `%` on
`int` truncates toward zero, which is `Int.tmod`.  The `float` query
fields (`bpm`, `rand`, `timer`) become rationals; the key-switch state
array `q.sw` becomes a total function. -/

structure SfzQuery where
  bend : ℤ
  bpm : ℚ
  rand : ℚ
  timer : ℚ
  last_sw_key : ℤ
  sw : ℤ → Bool
  trig : ℕ

structure SfzRegion where
  lobend : ℤ
  hibend : ℤ
  lobpm : ℚ
  hibpm : ℚ
  lorand : ℚ
  hirand : ℚ
  lotimer : ℚ
  hitimer : ℚ
  sw_lokey : ℤ
  sw_hikey : ℤ
  sw_last : ℤ
  sw_down : ℤ
  sw_up : ℤ
  trigger : ℕ
  seq_length : ℤ
  seq_position : ℤ
  seq_counter : ℤ

/-- The `is_triggered` condition of `Region::OnKey` (sfz.cpp lines
135-152): every non-sequence trigger condition of the query. -/
def isTriggered (r : SfzRegion) (q : SfzQuery) : Bool :=
  (r.lobend ≤ q.bend) && (q.bend ≤ r.hibend) &&
  (r.lobpm ≤ q.bpm) && (q.bpm < r.hibpm) &&
  (r.lorand ≤ q.rand) && (q.rand < r.hirand) &&
  (r.lotimer ≤ q.timer) && (q.timer ≤ r.hitimer) &&
  (r.sw_last == -1 ||
    (if r.sw_lokey ≤ r.sw_last ∧ r.sw_last ≤ r.sw_hikey
     then q.last_sw_key == r.sw_last else false)) &&
  (r.sw_down == -1 ||
    (if r.sw_lokey ≤ r.sw_down ∧ (r.sw_hikey == -1 ∨ r.sw_down ≤ r.sw_hikey)
     then q.sw r.sw_down else false)) &&
  (r.sw_up == -1 ||
    (if r.sw_lokey ≤ r.sw_up ∧ (r.sw_hikey == -1 ∨ r.sw_up ≤ r.sw_hikey)
     then !(q.sw r.sw_up) else true)) &&
  (r.trigger.land q.trig ≠ 0)

/-- `Region::OnKey` (sfz.cpp lines 131-163): returns the trigger decision
together with the region's new state. -/
def OnKey (r : SfzRegion) (q : SfzQuery) : Bool × SfzRegion :=
  if !(isTriggered r q) then (false, r)
  else
    (r.seq_counter == r.seq_position,
     { r with seq_counter := r.seq_counter.tmod r.seq_length + 1 })

/-! ## Theorems -/

/-- Claim C1, the claimed statement refuted at a concrete input: an event
stamped well after the fragment end (`diff = 100`, `srat = 1`) in a cycle
of `samples_to_process = 64` resolves to fragment position `100`, not to
the claimed `clamp(100, 0, 63) = 63`; in particular the resolved offset is
not `< 64`.  `Event::FragmentPos` performs no upper clamping. -/
theorem C1_counterexample :
    FragmentPos (-1) 100 1 = 100 ∧
    FragmentPos (-1) 100 1 ≠ fragmentPosSpec 100 1 64 ∧
    ¬ FragmentPos (-1) 100 1 < 64 := by
  refine ⟨?_, ?_, ?_⟩ <;>
    norm_num [FragmentPos, ToFragmentPos, fragmentPosSpec, ratTrunc]

/-- Claim C1 (amended): for every event resolved into a cycle (memoization
field still negative), the fragment-relative offset returned by
`Event::FragmentPos` equals `max((t - fragment_begin) * ratio, 0)`:
negative raw results clamp to 0, so the result is always `≥ 0`, but
results at or beyond the fragment size are returned unclamped (there is no
upper clamp at `samples_to_process - 1`). -/
theorem C1_fragmentPos_lower_clamp_only (cached diff : ℤ) (srat : ℚ)
    (h : cached < 0) :
    FragmentPos cached diff srat = max (ToFragmentPos diff srat) 0 ∧
    0 ≤ FragmentPos cached diff srat := by
  rw [FragmentPos, if_neg (by omega)]
  constructor
  · dsimp only
    rcases lt_or_le (ToFragmentPos diff srat) 0 with h1 | h1
    · rw [if_pos h1]
      omega
    · rw [if_neg (by omega)]
      omega
  · dsimp only
    split <;> omega

/-- Witness for C1 at `cached = -1`, `diff = 5`, `srat = 1`. -/
theorem C1_witness :
    (-1 : ℤ) < 0 ∧
    (FragmentPos (-1) 5 1 = max (ToFragmentPos 5 1) 0 ∧
     0 ≤ FragmentPos (-1) 5 1) :=
  ⟨by norm_num, C1_fragmentPos_lower_clamp_only (-1) 5 1 (by norm_num)⟩

/-- Claim C2, the claimed statement refuted at a concrete input: starting
from the state with `config[0] = 0`, `config[1] = 1` (active index 0) and
the identity mutation, running the claimed protocol (`GetConfigForUpdate`,
mutate, `SwitchConfig`, mutate the returned instance, `SwitchConfig`)
leaves `config[0] = 0 ≠ 1 = config[1]`; moreover the second `SwitchConfig`
does not flip the active index (it stays at the slot activated by the
first switch), and the slot mutated just before it is the other one. -/
theorem C2_counterexample :
    (updSw2 id ⟨false, false, fun b => if b then 1 else 0⟩ :
        SynchronizedConfig ℕ).config false ≠
      (updSw2 id ⟨false, false, fun b => if b then 1 else 0⟩).config true ∧
    (updSw2 id ⟨false, false, fun b => if b then 1 else 0⟩ :
        SynchronizedConfig ℕ).index =
      (updMut2 id ⟨false, false, fun b => if b then 1 else 0⟩).index ∧
    (updSw2 id ⟨false, false, fun b => if b then 1 else 0⟩ :
        SynchronizedConfig ℕ).index ≠
      switchReturnSlot (updSw1 id ⟨false, false, fun b => if b then 1 else 0⟩) := by
  refine ⟨?_, ?_, ?_⟩ <;>
    simp [updSw2, updSw1, updMut2, updMut1, switchReturnSlot, SwitchConfig,
      mutateSlot, GetConfigForUpdate, Function.update]

/-- Claim C2 (amended): starting from a state whose two instances are
equal — the invariant the update protocol maintains — performing
`GetConfigForUpdate`, applying `f` to the handed-out instance,
`SwitchConfig`, and applying `f` to the instance it returned leaves both
internal instances equal to `f` of the common value.  The first
`SwitchConfig` flips the active index to the instance just mutated and
returns the other (now inactive) instance, still holding the old common
value; a second `SwitchConfig` without an intervening
`GetConfigForUpdate` leaves the active index unchanged (it re-publishes
the same slot) and returns the now-inactive instance, which is the one
just mutated (already holding `f` of the common value). -/
theorem C2_update_protocol {T : Type} (f : T → T) (s0 : SynchronizedConfig T)
    (h : s0.config false = s0.config true) :
    ((updSw2 f s0).config false = f (s0.config false) ∧
     (updSw2 f s0).config true = f (s0.config false)) ∧
    ((updSw1 f s0).index = !s0.index ∧
     (updSw1 f s0).index = (updMut1 f s0).updateIndex ∧
     (updSw1 f s0).config (switchReturnSlot (updMut1 f s0)) = s0.config false) ∧
    ((updSw2 f s0).index = (updSw1 f s0).index ∧
     (updSw2 f s0).config (switchReturnSlot (updMut2 f s0)) = f (s0.config false)) := by
  obtain ⟨b, u, c⟩ := s0
  simp only [updSw2, updSw1, updMut2, updMut1, switchReturnSlot, SwitchConfig,
    mutateSlot, GetConfigForUpdate] at h ⊢
  cases b <;> simp_all [Function.update]

/-- Witness for C2: the protocol applied to equal instances holding `0`
with the successor mutation. -/
theorem C2_witness :
    ((⟨false, false, fun _ => 0⟩ : SynchronizedConfig ℕ).config false =
      (⟨false, false, fun _ => 0⟩ : SynchronizedConfig ℕ).config true) ∧
    (((updSw2 Nat.succ ⟨false, false, fun _ => 0⟩).config false =
        Nat.succ ((⟨false, false, fun _ => 0⟩ :
          SynchronizedConfig ℕ).config false) ∧
      (updSw2 Nat.succ ⟨false, false, fun _ => 0⟩).config true =
        Nat.succ ((⟨false, false, fun _ => 0⟩ :
          SynchronizedConfig ℕ).config false)) ∧
     ((updSw1 Nat.succ ⟨false, false, fun _ => 0⟩).index =
        !(⟨false, false, fun _ => 0⟩ : SynchronizedConfig ℕ).index ∧
      (updSw1 Nat.succ ⟨false, false, fun _ => 0⟩).index =
        (updMut1 Nat.succ ⟨false, false, fun _ => 0⟩).updateIndex ∧
      (updSw1 Nat.succ ⟨false, false, fun _ => 0⟩).config
          (switchReturnSlot (updMut1 Nat.succ ⟨false, false, fun _ => 0⟩)) =
        (⟨false, false, fun _ => 0⟩ : SynchronizedConfig ℕ).config false) ∧
     ((updSw2 Nat.succ ⟨false, false, fun _ => 0⟩).index =
        (updSw1 Nat.succ ⟨false, false, fun _ => 0⟩).index ∧
      (updSw2 Nat.succ ⟨false, false, fun _ => 0⟩).config
          (switchReturnSlot (updMut2 Nat.succ ⟨false, false, fun _ => 0⟩)) =
        Nat.succ ((⟨false, false, fun _ => 0⟩ :
          SynchronizedConfig ℕ).config false))) :=
  ⟨rfl, C2_update_protocol Nat.succ ⟨false, false, fun _ => 0⟩ rfl⟩

/-- Claim C3, the claimed statement refuted at a concrete input: a voice
triggered at fragment offset `5` and then given a regular kill whose kill
event has the same fragment offset `5` records no kill event at all
(`Voice::Kill` returns early because of its guard
`pKillEvent->FragmentPos() <= pTriggerEvent->FragmentPos()`), so no
fade-down is scheduled and the cycle is not rendered silent. -/
theorem C3_counterexample :
    (Voice.kill 5 (triggerKillBookkeeping 5)).pKillEvent = none ∧
    Voice.kill 5 (triggerKillBookkeeping 5) = triggerKillBookkeeping 5 ∧
    ¬ killRendersSilentCycle (Voice.kill 5 (triggerKillBookkeeping 5)) := by
  refine ⟨rfl, rfl, ?_⟩
  rintro ⟨k, t, hk, -, -⟩
  simp [Voice.kill, triggerKillBookkeeping] at hk

/-- Claim C3 (amended): for every voice triggered by a note-on event, a
regular kill (`Voice::Kill`) whose kill event's fragment offset is equal
to (in fact, at or before) the trigger event's fragment offset is ignored:
the voice state is left unchanged, `pKillEvent` stays null, and no
fade-down that could silence the cycle is scheduled.  Only a kill event
with a strictly later fragment offset is recorded. -/
theorem C3_kill_same_offset_ignored (t k : ℤ) :
    (k ≤ t →
      Voice.kill k (triggerKillBookkeeping t) = triggerKillBookkeeping t ∧
      ¬ killRendersSilentCycle (Voice.kill k (triggerKillBookkeeping t))) ∧
    (t < k →
      (Voice.kill k (triggerKillBookkeeping t)).pKillEvent = some k) := by
  constructor
  · intro h
    have he : Voice.kill k (triggerKillBookkeeping t) = triggerKillBookkeeping t := by
      simp [Voice.kill, triggerKillBookkeeping, h]
    refine ⟨he, ?_⟩
    rintro ⟨k', t', hk, -, -⟩
    rw [he] at hk
    simp [triggerKillBookkeeping] at hk
  · intro h
    simp [Voice.kill, triggerKillBookkeeping, not_le.mpr h]

/-- Witness for C3 at trigger offset `5`, kill offset `5`. -/
theorem C3_witness :
    (5 : ℤ) ≤ 5 ∧
    (Voice.kill 5 (triggerKillBookkeeping 5) = triggerKillBookkeeping 5 ∧
     ¬ killRendersSilentCycle (Voice.kill 5 (triggerKillBookkeeping 5))) :=
  ⟨le_refl 5, (C3_kill_same_offset_ignored 5 5).1 (le_refl 5)⟩

/-- Claim C4: in `Voice::Trigger`, the voice is classified as a disk voice
iff `GetCache().Size / FrameSize < SamplesTotal`; exactly the disk voices
place a disk-stream order; and the voice is killed immediately with a
negative return value iff the voice is a disk voice whose
`OrderNewStream` call failed (returned a negative value). -/
theorem C4_disk_classification (cacheSize frameSize samplesTotal : ℕ)
    (orderRes : ℤ) :
    ((triggerDiskPhase cacheSize frameSize samplesTotal orderRes).DiskVoice = true ↔
      cacheSize / frameSize < samplesTotal) ∧
    (triggerDiskPhase cacheSize frameSize samplesTotal orderRes).orderPlaced =
      (triggerDiskPhase cacheSize frameSize samplesTotal orderRes).DiskVoice ∧
    ((triggerDiskPhase cacheSize frameSize samplesTotal orderRes).killed = true ↔
      (cacheSize / frameSize < samplesTotal ∧ orderRes < 0)) ∧
    (triggerDiskPhase cacheSize frameSize samplesTotal orderRes).retNeg =
      (triggerDiskPhase cacheSize frameSize samplesTotal orderRes).killed := by
  rw [triggerDiskPhase]
  rcases lt_or_le (cacheSize / frameSize) samplesTotal with h | h
  · rw [if_pos h]
    rcases lt_or_le orderRes 0 with h2 | h2
    · simp [if_pos h2, h, h2]
    · simp [if_neg (not_lt.mpr h2), h, h2, not_lt.mpr h2]
  · rw [if_neg (not_lt.mpr h)]
    simp [h, not_lt.mpr h]

/-- Witness for C4 at a concrete disk voice with a failing stream order:
cache of 100 frames (400 bytes, 4-byte frames), 50000 total frames,
`OrderNewStream` returning `-1`. -/
theorem C4_witness :
    ((triggerDiskPhase 400 4 50000 (-1)).DiskVoice = true ↔
      400 / 4 < 50000) ∧
    (triggerDiskPhase 400 4 50000 (-1)).orderPlaced =
      (triggerDiskPhase 400 4 50000 (-1)).DiskVoice ∧
    ((triggerDiskPhase 400 4 50000 (-1)).killed = true ↔
      (400 / 4 < 50000 ∧ (-1 : ℤ) < 0)) ∧
    (triggerDiskPhase 400 4 50000 (-1)).retNeg =
      (triggerDiskPhase 400 4 50000 (-1)).killed :=
  C4_disk_classification 400 4 50000 (-1)

/-- Claim C5: for every triggered voice, the initial pitch base computed
by `Voice::Trigger` equals
`centsToFreqRatio(fine_tune_cents + scale_tuning[key mod 12] +
(pitch_track ? (key - unity_note) * 100 : 0)) * (sample_rate / engine_sample_rate)`,
for any interpretation `ctfr` of `RTMath::CentsToFreqRatio` (whose
implementation is not among the sources), where the region's fine tuning
in cents is ten times the stored `FineTune` field (the source converts the
field with `pDimRgn->FineTune * 10`; the field's declaration lives in
libgig, outside the sources, so the spec formula's `fine_tune` is read as
the fine tuning expressed in cents). -/
theorem C5_pitch_base (ctfr : ℤ → ℚ) (fineTune : ℤ) (scaleTuning : Fin 12 → ℤ)
    (key : ℕ) (unityNote : ℤ) (pitchTrack : Bool) (sampleFreq engineFreq : ℚ) :
    PitchBase ctfr fineTune scaleTuning key unityNote pitchTrack
        sampleFreq engineFreq =
      pitchBaseSpec ctfr (fineTune * 10) scaleTuning key unityNote pitchTrack
        sampleFreq engineFreq := by
  rw [PitchBase, pitchBaseSpec, pitchBaseCents]

/-- Claim C6, the claimed statement refuted at a concrete input: a disk
voice in playback state `disk` whose stream is still `state_active` (the
disk thread merely fell behind: read space `0` is below the threshold
`(128 << 4) / 1 = 2048`) gets no silence written into its ring buffer and
stays in playback state `disk` — the silence-padding branch of
`Voice::Render` additionally requires `DiskStreamRef.State == state_end`. -/
theorem C6_counterexample :
    (0 : ℕ) < (128 <<< 4) / 1 ∧
    (render ⟨64, playback_state_t.playback_state_disk, 0, true, false, 0, 0, 0,
        true, false, stream_state_t.state_active, 0, 128, 4, 1, false⟩).silenceWritten = 0 ∧
    (render ⟨64, playback_state_t.playback_state_disk, 0, true, false, 0, 0, 0,
        true, false, stream_state_t.state_active, 0, 128, 4, 1, false⟩).newState =
      playback_state_t.playback_state_disk ∧
    ¬ ((render ⟨64, playback_state_t.playback_state_disk, 0, true, false, 0, 0, 0,
          true, false, stream_state_t.state_active, 0, 128, 4, 1, false⟩).silenceWritten =
        (128 <<< 4) / 1 ∧
       (render ⟨64, playback_state_t.playback_state_disk, 0, true, false, 0, 0, 0,
          true, false, stream_state_t.state_active, 0, 128, 4, 1, false⟩).newState =
        playback_state_t.playback_state_end) := by
  refine ⟨by decide, ?_, ?_, ?_⟩ <;> simp [render, interpFrames]

/-- Claim C6 (amended): for every disk voice in playback state `disk`
whose stream is attached, whenever the stream has reached its end state
(`DiskStreamRef.State == Stream::state_end`, i.e. the disk thread
exhausted the sample source) *and* the stream's readable space is less
than `(max_samples_per_cycle << CONFIG_MAX_PITCH) / channels`, the
`Render` call writes that many frames of silence into the ring buffer to
satisfy the interpolator and the voice transitions to playback state
`end`.  A starving stream that has not reached its end state triggers
neither of the two. -/
theorem C6_stream_end_silence (i : RenderIn)
    (hs : i.playbackState = playback_state_t.playback_state_disk)
    (hp : i.streamPresent = true)
    (he : i.streamState = stream_state_t.state_end)
    (hr : i.readSpace < (i.maxSamplesPerCycle <<< i.maxPitch) / i.channels) :
    (render i).silenceWritten = (i.maxSamplesPerCycle <<< i.maxPitch) / i.channels ∧
    (render i).newState = playback_state_t.playback_state_end := by
  obtain ⟨samples, ps, delay, dv, rl, posAfter, mrp, cf, sp, sc, ss, rs,
    mspc, mp, ch, eg⟩ := i
  dsimp only at hs hp he hr
  subst hs hp he
  cases eg <;> simp [render, hr]

/-- Witness for C6 at a concrete starved, ended stream. -/
theorem C6_witness :
    ((0 : ℕ) < (128 <<< 4) / 1) ∧
    ((render ⟨64, playback_state_t.playback_state_disk, 0, true, false, 0, 0, 0,
        true, false, stream_state_t.state_end, 0, 128, 4, 1, false⟩).silenceWritten =
      (128 <<< 4) / 1 ∧
     (render ⟨64, playback_state_t.playback_state_disk, 0, true, false, 0, 0, 0,
        true, false, stream_state_t.state_end, 0, 128, 4, 1, false⟩).newState =
      playback_state_t.playback_state_end) :=
  ⟨by decide,
   C6_stream_end_silence
     ⟨64, playback_state_t.playback_state_disk, 0, true, false, 0, 0, 0,
       true, false, stream_state_t.state_end, 0, 128, 4, 1, false⟩
     rfl rfl rfl (by decide)⟩

/-- Claim C9: a call of `Voice::Render` on a voice whose playback state is
`end` at entry writes no sample frames to the channel's output buffers
(neither interpolation routine runs); the `end` branch only frees the
voice (`KillImmediately`), and the playback state remains `end`. -/
theorem C9_end_branch_writes_nothing (i : RenderIn)
    (h : i.playbackState = playback_state_t.playback_state_end) :
    (render i).framesWritten = 0 ∧
    (render i).freed = true ∧
    (render i).newState = playback_state_t.playback_state_end := by
  obtain ⟨samples, ps, delay, dv, rl, posAfter, mrp, cf, sp, sc, ss, rs,
    mspc, mp, ch, eg⟩ := i
  dsimp only at h
  subst h
  cases eg <;> simp [render]

/-- Witness for C9 at a concrete voice in state `end`. -/
theorem C9_witness :
    ((⟨64, playback_state_t.playback_state_end, 0, true, false, 0, 0, 0,
        false, false, stream_state_t.state_unused, 0, 128, 4, 1, false⟩ :
      RenderIn).playbackState = playback_state_t.playback_state_end) ∧
    ((render ⟨64, playback_state_t.playback_state_end, 0, true, false, 0, 0, 0,
        false, false, stream_state_t.state_unused, 0, 128, 4, 1, false⟩).framesWritten = 0 ∧
     (render ⟨64, playback_state_t.playback_state_end, 0, true, false, 0, 0, 0,
        false, false, stream_state_t.state_unused, 0, 128, 4, 1, false⟩).freed = true ∧
     (render ⟨64, playback_state_t.playback_state_end, 0, true, false, 0, 0, 0,
        false, false, stream_state_t.state_unused, 0, 128, 4, 1, false⟩).newState =
      playback_state_t.playback_state_end) :=
  ⟨rfl,
   C9_end_branch_writes_nothing
     ⟨64, playback_state_t.playback_state_end, 0, true, false, 0, 0, 0,
       false, false, stream_state_t.state_unused, 0, 128, 4, 1, false⟩ rfl⟩

/-- Claim C7: a note-on whose selected region has no sample or whose
sample has a total frame count of zero produces no voice —
`Engine::LaunchVoice` returns the empty iterator before drawing a voice
from the pool — and null or zero-length samples are likewise skipped
(left untouched) by `CacheInitialSamples` at cache-registration time. -/
theorem C7_silent_sample_no_voice (hasSample : Bool) (totalFrames : ℕ)
    (initRes : ℤ) (preload maxPitch : ℕ) (consumerMspc : Option ℕ)
    (s : SampleCacheState) :
    ((hasSample = false ∨ totalFrames = 0) →
      LaunchVoice hasSample totalFrames initRes =
        { allocated := false, voiceReturned := false }) ∧
    CacheInitialSamples preload maxPitch consumerMspc none = none ∧
    (s.samplesTotal = 0 →
      CacheInitialSamples preload maxPitch consumerMspc (some s) = some s) := by
  refine ⟨?_, rfl, ?_⟩
  · rintro (h | h) <;> simp [LaunchVoice, h]
  · intro h
    simp [CacheInitialSamples, h]

/-- Witness for C7 at a region without a sample and a zero-length sample. -/
theorem C7_witness :
    LaunchVoice false 0 0 = { allocated := false, voiceReturned := false } ∧
    CacheInitialSamples 32768 4 none none = none ∧
    CacheInitialSamples 32768 4 none
        (some { samplesTotal := 0, frameSize := 4, cacheSize := 0,
                nullExtensionSize := 0 }) =
      some { samplesTotal := 0, frameSize := 4, cacheSize := 0,
             nullExtensionSize := 0 } :=
  ⟨(C7_silent_sample_no_voice false 0 0 32768 4 none
      { samplesTotal := 0, frameSize := 4, cacheSize := 0,
        nullExtensionSize := 0 }).1 (Or.inl rfl),
   (C7_silent_sample_no_voice false 0 0 32768 4 none
      { samplesTotal := 0, frameSize := 4, cacheSize := 0,
        nullExtensionSize := 0 }).2.1,
   (C7_silent_sample_no_voice false 0 0 32768 4 none
      { samplesTotal := 0, frameSize := 4, cacheSize := 0,
        nullExtensionSize := 0 }).2.2 rfl⟩

/-- Claim C8: at sample registration, every sample whose total frame count
is non-zero and at most the preload size ends up with a zero-padded
trailer of at least `(max_samples_per_cycle << CONFIG_MAX_PITCH) + 3`
silence frames, where `max_samples_per_cycle` is the consuming engine
channel's audio device value or the default `128` when there is none; if
the trailer was previously smaller than that (in particular at first
registration) the sample is fully cached.  On a subsequent borrow,
`OnBorrow` invokes the resource manager's `Update` exactly when the
borrowing consumer's `max_samples_per_cycle` exceeds the value recorded
when the resource was created. -/
theorem C8_short_sample_fully_cached (preload maxPitch : ℕ)
    (consumerMspc : Option ℕ) (s : SampleCacheState)
    (recordedMspc : ℕ) (borrowMspc : Option ℕ)
    (hf : 0 < s.frameSize) (h0 : s.samplesTotal ≠ 0)
    (hp : s.samplesTotal ≤ preload) :
    (∃ s2, CacheInitialSamples preload maxPitch consumerMspc (some s) = some s2 ∧
      ((consumerMspc.getD defaultMaxSamplesPerCycle <<< maxPitch) + 3 ≤
        s2.nullExtensionSize / s2.frameSize) ∧
      (s.nullExtensionSize / s.frameSize <
          (consumerMspc.getD defaultMaxSamplesPerCycle <<< maxPitch) + 3 →
        s2.cacheSize / s2.frameSize = s.samplesTotal ∧
        s2.samplesTotal = s.samplesTotal)) ∧
    (OnBorrowInvokesUpdate recordedMspc borrowMspc = true ↔
      recordedMspc < borrowMspc.getD defaultMaxSamplesPerCycle) := by
  constructor
  · rw [CacheInitialSamples]
    rw [if_neg h0, if_pos hp]
    by_cases hc : s.nullExtensionSize / s.frameSize <
        (consumerMspc.getD defaultMaxSamplesPerCycle <<< maxPitch) + 3
    · rw [if_pos hc]
      refine ⟨_, rfl, ?_, fun _ => ?_⟩
      · dsimp only
        rw [Nat.mul_div_cancel _ hf]
      · dsimp only
        rw [Nat.mul_div_cancel _ hf]
        exact ⟨rfl, rfl⟩
    · rw [if_neg hc]
      exact ⟨s, rfl, not_lt.mp hc, fun h => absurd h hc⟩
  · simp [OnBorrowInvokesUpdate]

/-- Witness for C8: a 10-frame sample (4-byte frames, empty cache) at
preload size 32768, consumer without an audio device (default 128),
`CONFIG_MAX_PITCH = 4`; a later borrower demanding 256. -/
theorem C8_witness :
    ((0 : ℕ) < 4 ∧ (10 : ℕ) ≠ 0 ∧ (10 : ℕ) ≤ 32768) ∧
    ((∃ s2, CacheInitialSamples 32768 4 none
          (some { samplesTotal := 10, frameSize := 4, cacheSize := 0,
                  nullExtensionSize := 0 }) = some s2 ∧
        (((none : Option ℕ).getD defaultMaxSamplesPerCycle <<< 4) + 3 ≤
          s2.nullExtensionSize / s2.frameSize) ∧
        ((0 : ℕ) / 4 <
            ((none : Option ℕ).getD defaultMaxSamplesPerCycle <<< 4) + 3 →
          s2.cacheSize / s2.frameSize = 10 ∧ s2.samplesTotal = 10)) ∧
      (OnBorrowInvokesUpdate 128 (some 256) = true ↔
        128 < (some 256).getD defaultMaxSamplesPerCycle)) :=
  ⟨⟨by decide, by decide, by decide⟩,
   C8_short_sample_fully_cached 32768 4 none
     { samplesTotal := 10, frameSize := 4, cacheSize := 0,
       nullExtensionSize := 0 }
     128 (some 256) (by decide) (by decide) (by decide)⟩

/-- Claim C10: for every sfz `Region` with `seq_length ≥ 1` and
`seq_counter` in `[1, seq_length]` before a call to `Region::OnKey`, the
counter is again in `[1, seq_length]` afterwards; the counter advances
(modulo `seq_length`, then plus one) exactly when all non-sequence trigger
conditions of the query match (otherwise the region is unchanged); and
`OnKey` returns `true` exactly when those conditions match and the
pre-call `seq_counter` equals `seq_position`. -/
theorem C10_onkey_round_robin (r : SfzRegion) (q : SfzQuery)
    (hL : 1 ≤ r.seq_length) (hc1 : 1 ≤ r.seq_counter)
    (hc2 : r.seq_counter ≤ r.seq_length) :
    (1 ≤ (OnKey r q).2.seq_counter ∧
      (OnKey r q).2.seq_counter ≤ r.seq_length) ∧
    (isTriggered r q = false → (OnKey r q).2 = r) ∧
    (isTriggered r q = true →
      (OnKey r q).2.seq_counter = r.seq_counter.tmod r.seq_length + 1) ∧
    ((OnKey r q).1 = true ↔
      (isTriggered r q = true ∧ r.seq_counter = r.seq_position)) := by
  have hnn : 0 ≤ r.seq_counter.tmod r.seq_length :=
    Int.tmod_nonneg _ (by omega)
  have hlt : r.seq_counter.tmod r.seq_length < r.seq_length :=
    Int.tmod_lt_of_pos _ (by omega)
  cases h : isTriggered r q
  · have ho : OnKey r q = (false, r) := by
      rw [OnKey, h]
      simp
    simp only [ho, h]
    exact ⟨⟨hc1, hc2⟩, fun _ => trivial, fun hh => absurd hh (by simp),
      by simp⟩
  · have ho : OnKey r q =
        (r.seq_counter == r.seq_position,
         { r with seq_counter := r.seq_counter.tmod r.seq_length + 1 }) := by
      rw [OnKey, h]
      simp
    simp only [ho, h]
    refine ⟨⟨by omega, by omega⟩,
      fun hh => absurd hh (by simp), fun _ => trivial, ?_⟩
    simp [beq_iff_eq]

/-- Witness for C10 at a region with `seq_length = 2`, `seq_counter = 1`,
`seq_position = 1` and a query matching all trigger conditions. -/
theorem C10_witness :
    ((1 : ℤ) ≤ 2 ∧ (1 : ℤ) ≤ 1 ∧ (1 : ℤ) ≤ 2) ∧
    ((1 ≤ (OnKey
        { lobend := -8192, hibend := 8191, lobpm := 0, hibpm := 500,
          lorand := 0, hirand := 1, lotimer := 0, hitimer := 100,
          sw_lokey := -1, sw_hikey := -1, sw_last := -1, sw_down := -1,
          sw_up := -1, trigger := 1, seq_length := 2, seq_position := 1,
          seq_counter := 1 }
        { bend := 0, bpm := 120, rand := 1/2, timer := 0,
          last_sw_key := -1, sw := fun _ => false, trig := 1 }).2.seq_counter ∧
      (OnKey
        { lobend := -8192, hibend := 8191, lobpm := 0, hibpm := 500,
          lorand := 0, hirand := 1, lotimer := 0, hitimer := 100,
          sw_lokey := -1, sw_hikey := -1, sw_last := -1, sw_down := -1,
          sw_up := -1, trigger := 1, seq_length := 2, seq_position := 1,
          seq_counter := 1 }
        { bend := 0, bpm := 120, rand := 1/2, timer := 0,
          last_sw_key := -1, sw := fun _ => false, trig := 1 }).2.seq_counter ≤ 2) ∧
     (isTriggered
        { lobend := -8192, hibend := 8191, lobpm := 0, hibpm := 500,
          lorand := 0, hirand := 1, lotimer := 0, hitimer := 100,
          sw_lokey := -1, sw_hikey := -1, sw_last := -1, sw_down := -1,
          sw_up := -1, trigger := 1, seq_length := 2, seq_position := 1,
          seq_counter := 1 }
        { bend := 0, bpm := 120, rand := 1/2, timer := 0,
          last_sw_key := -1, sw := fun _ => false, trig := 1 } = false →
       (OnKey
         { lobend := -8192, hibend := 8191, lobpm := 0, hibpm := 500,
           lorand := 0, hirand := 1, lotimer := 0, hitimer := 100,
           sw_lokey := -1, sw_hikey := -1, sw_last := -1, sw_down := -1,
           sw_up := -1, trigger := 1, seq_length := 2, seq_position := 1,
           seq_counter := 1 }
         { bend := 0, bpm := 120, rand := 1/2, timer := 0,
           last_sw_key := -1, sw := fun _ => false, trig := 1 }).2 =
        { lobend := -8192, hibend := 8191, lobpm := 0, hibpm := 500,
          lorand := 0, hirand := 1, lotimer := 0, hitimer := 100,
          sw_lokey := -1, sw_hikey := -1, sw_last := -1, sw_down := -1,
          sw_up := -1, trigger := 1, seq_length := 2, seq_position := 1,
          seq_counter := 1 }) ∧
     (isTriggered
        { lobend := -8192, hibend := 8191, lobpm := 0, hibpm := 500,
          lorand := 0, hirand := 1, lotimer := 0, hitimer := 100,
          sw_lokey := -1, sw_hikey := -1, sw_last := -1, sw_down := -1,
          sw_up := -1, trigger := 1, seq_length := 2, seq_position := 1,
          seq_counter := 1 }
        { bend := 0, bpm := 120, rand := 1/2, timer := 0,
          last_sw_key := -1, sw := fun _ => false, trig := 1 } = true →
       (OnKey
         { lobend := -8192, hibend := 8191, lobpm := 0, hibpm := 500,
           lorand := 0, hirand := 1, lotimer := 0, hitimer := 100,
           sw_lokey := -1, sw_hikey := -1, sw_last := -1, sw_down := -1,
           sw_up := -1, trigger := 1, seq_length := 2, seq_position := 1,
           seq_counter := 1 }
         { bend := 0, bpm := 120, rand := 1/2, timer := 0,
           last_sw_key := -1, sw := fun _ => false, trig := 1 }).2.seq_counter =
        (1 : ℤ).tmod 2 + 1) ∧
     ((OnKey
        { lobend := -8192, hibend := 8191, lobpm := 0, hibpm := 500,
          lorand := 0, hirand := 1, lotimer := 0, hitimer := 100,
          sw_lokey := -1, sw_hikey := -1, sw_last := -1, sw_down := -1,
          sw_up := -1, trigger := 1, seq_length := 2, seq_position := 1,
          seq_counter := 1 }
        { bend := 0, bpm := 120, rand := 1/2, timer := 0,
          last_sw_key := -1, sw := fun _ => false, trig := 1 }).1 = true ↔
      (isTriggered
        { lobend := -8192, hibend := 8191, lobpm := 0, hibpm := 500,
          lorand := 0, hirand := 1, lotimer := 0, hitimer := 100,
          sw_lokey := -1, sw_hikey := -1, sw_last := -1, sw_down := -1,
          sw_up := -1, trigger := 1, seq_length := 2, seq_position := 1,
          seq_counter := 1 }
        { bend := 0, bpm := 120, rand := 1/2, timer := 0,
          last_sw_key := -1, sw := fun _ => false, trig := 1 } = true ∧
       (1 : ℤ) = 1))) :=
  ⟨⟨by decide, by decide, by decide⟩,
   C10_onkey_round_robin
     { lobend := -8192, hibend := 8191, lobpm := 0, hibpm := 500,
       lorand := 0, hirand := 1, lotimer := 0, hitimer := 100,
       sw_lokey := -1, sw_hikey := -1, sw_last := -1, sw_down := -1,
       sw_up := -1, trigger := 1, seq_length := 2, seq_position := 1,
       seq_counter := 1 }
     { bend := 0, bpm := 120, rand := 1/2, timer := 0,
       last_sw_key := -1, sw := fun _ => false, trig := 1 }
     (by decide) (by decide) (by decide)⟩

end LS
